import Mathlib

set_option linter.unusedVariables false

/-!
Shallow embedding of the `simple-gender-check` front end.

Sources embedded:
- `src/unnamed/part_000` (the shared type declarations): `GenderResult`, `ImageData`.
- `src/services/geminiService.ts`: `detectGenderFromImage` (the classification
  client) and the handlers of the application component: `resetState`,
  `handleImageUpload`, `handleDetectGender`.

The external Gemini call is modelled by a `CallOutcome` parameter: either the
transport produced a response text, or the call failed (transport failure,
malformed response, or any thrown fault). JavaScript `null` in the
`GenderResult` union is modelled by the constructor `Unset`.
-/

/-- The closed result enumeration from `types.ts`:
`"Male" | "Female" | "Indeterminate" | "NoFaceDetected" | "Error" | null`,
with `null` modelled as `Unset`. -/
inductive GenderResult where
  | Male
  | Female
  | Indeterminate
  | NoFaceDetected
  | Error
  | Unset
deriving DecidableEq, Repr

/-- The `ImageData` value object from `types.ts`: base64 payload, MIME type, optional name. -/
structure ImageData where
  base64 : String
  mimeType : String
  fname : Option String
deriving DecidableEq, Repr

/-- Outcome of the single round trip to the external vision model:
either a free-form response text, or any failure (transport fault, thrown
error, malformed response) caught by the `try/catch` in the source. -/
inductive CallOutcome where
  | success (text : String)
  | failure
deriving DecidableEq, Repr

/-- JavaScript `String.prototype.trim`: drop whitespace from both ends. -/
def strTrim (s : String) : String :=
  ⟨((s.data.dropWhile Char.isWhitespace).reverse.dropWhile Char.isWhitespace).reverse⟩

/-- JavaScript `String.prototype.toLowerCase` (ASCII-faithful). -/
def strToLower (s : String) : String :=
  ⟨s.data.map Char.toLower⟩

/-- Case-sensitive substring containment, the embedding of JavaScript
`String.prototype.includes` as used on the lowercased response text. -/
def containsSub (s pat : String) : Bool :=
  decide (List.IsInfix pat.data s.data)

/-- JavaScript `String.prototype.startsWith`, used for the `image/` type
check in `handleImageUpload`. -/
def strStartsWith (s pat : String) : Bool :=
  decide (List.IsPrefix pat.data s.data)

/-- The response-normalization logic of `detectGenderFromImage`
(`geminiService.ts` lines 35-46): trim, exact keyword match, then the
case-insensitive substring fallback in source order, defaulting to
`Indeterminate`. -/
def normalizeResponse (raw : String) : GenderResult :=
  let textResult := strTrim raw
  if textResult = "Male" then GenderResult.Male
  else if textResult = "Female" then GenderResult.Female
  else if textResult = "Indeterminate" then GenderResult.Indeterminate
  else if textResult = "NoFaceDetected" then GenderResult.NoFaceDetected
  else
    let lower := strToLower textResult
    if containsSub lower "male" then GenderResult.Male
    else if containsSub lower "female" then GenderResult.Female
    else if containsSub lower "indeterminate" then GenderResult.Indeterminate
    else if containsSub lower "no face" || containsSub lower "nofacedetected" then
      GenderResult.NoFaceDetected
    else GenderResult.Indeterminate

/-- Result of one invocation of the classification client, together with
whether the external network call was attempted. -/
structure ClassifyTrace where
  result : GenderResult
  networkCalled : Bool
deriving DecidableEq, Repr

/-- The function `detectGenderFromImage` (`geminiService.ts` lines 12-52). The API key is
`process.env.API_KEY`: absent (`none`) or present; JavaScript `!API_KEY` is
also true for the empty string, so both count as unconfigured. With a key
configured the single call is attempted; a caught fault yields `Error`,
otherwise the response text is normalized. -/
def detectGenderFromImage (apiKey : Option String) (imageData : ImageData)
    (outcome : CallOutcome) : ClassifyTrace :=
  if (apiKey.getD "").isEmpty then
    { result := GenderResult.Error, networkCalled := false }
  else
    match outcome with
    | CallOutcome.failure => { result := GenderResult.Error, networkCalled := true }
    | CallOutcome.success text => { result := normalizeResponse text, networkCalled := true }

example : normalizeResponse "Female" = GenderResult.Female := by decide
example : normalizeResponse "I believe this is Female." = GenderResult.Male := by decide
example : normalizeResponse "banana" = GenderResult.Indeterminate := by decide
example : normalizeResponse "  NoFaceDetected  " = GenderResult.NoFaceDetected := by decide

/-- The React component state of `App` (the second document of
`geminiService.ts`): the `useState` fields plus the camera stream resource
held in `videoRef.current.srcObject`. `genderResult = Unset` models the
JavaScript `null` initial/cleared value. -/
structure AppState where
  selectedImage : Option ImageData
  previewUrl : Option String
  genderResult : GenderResult
  isLoading : Bool
  error : Option String
  isCameraMode : Bool
  cameraStreamOpen : Bool
deriving DecidableEq, Repr

/-- The handler `resetState`: clears the image, preview, result and error, stops and
detaches the camera stream if one is attached, and leaves camera mode.
Note it does not touch `isLoading`. -/
def resetState (s : AppState) : AppState :=
  { s with
    selectedImage := none
    previewUrl := none
    genderResult := GenderResult.Unset
    error := none
    cameraStreamOpen := false
    isCameraMode := false }

/-- A file as seen by `handleImageUpload`: declared MIME type, byte size,
and the payload the `FileReader` would produce. -/
structure UploadFile where
  declaredType : String
  size : Nat
  payload : String
  fileName : String
deriving DecidableEq, Repr

/-- The 4 MiB ceiling `4 * 1024 * 1024` from `handleImageUpload`. -/
def maxFileSize : Nat := 4 * 1024 * 1024

/-- The handler `handleImageUpload`: first calls `resetState()`, then, if a file was
chosen, rejects non-`image/*` declared types, then rejects files over 4 MiB,
and otherwise reads the file (`readOk` says whether the `FileReader`
succeeded) and stores the `ImageData` and preview URL. -/
def handleImageUpload (s : AppState) (file : Option UploadFile) (readOk : Bool) : AppState :=
  let s0 := resetState s
  match file with
  | none => s0
  | some f =>
    if !(strStartsWith f.declaredType "image/") then
      { s0 with error :=
                  some "Invalid file type. Please upload an image (JPEG, PNG, WEBP, GIF, HEIC, HEIF)." }
    else if f.size > maxFileSize then
      { s0 with error := some "Image too large. Maximum size is 4MB." }
    else if readOk then
      { s0 with
        selectedImage := some { base64 := f.payload, mimeType := f.declaredType,
                                fname := some f.fileName }
        previewUrl := some "blob:object-url" }
    else
      { s0 with error := some "Failed to read file." }

/-- The synchronous prefix of `handleDetectGender`, up to the `await`: guard
on a selected image and a configured API key, then set loading, clear the
previous result and error. Returns the new state and, when the request was
actually issued, the image the in-flight call belongs to. -/
def handleDetectGenderStart (apiKeyPresent : Bool) (s : AppState) :
    AppState × Option ImageData :=
  match s.selectedImage with
  | none => ({ s with error := some "Please select an image first." }, none)
  | some img =>
    if !apiKeyPresent then
      ({ s with error := some "API Key is not configured. Please check application setup." },
       none)
    else
      ({ s with isLoading := true, genderResult := GenderResult.Unset, error := none },
       some img)

/-- The continuation of `handleDetectGender` after the `await` resolves with
`result`: commit an error message for `Error`, otherwise commit the result,
and stop loading. The source applies this to whatever state is current when
the promise resolves — there is no generation counter or request token. -/
def handleDetectGenderFinish (s : AppState) (result : GenderResult) : AppState :=
  let s1 :=
    if result = GenderResult.Error then
      { s with error :=
                 some "Failed to detect gender. The API might be unavailable or an error occurred. Check console for details." }
    else
      { s with genderResult := result }
  { s1 with isLoading := false }

/-- A convenient concrete pre-state with an acquired image and a displayed
result, used by counterexamples. -/
def sampleImage : ImageData :=
  { base64 := "QUJD", mimeType := "image/png", fname := some "photo.png" }

def samplePriorState : AppState :=
  { selectedImage := some sampleImage
    previewUrl := some "blob:object-url"
    genderResult := GenderResult.Male
    isLoading := false
    error := none
    isCameraMode := false
    cameraStreamOpen := false }

/-! ## Helper lemmas -/

/-- Whatever the response text, the normalization step yields one of the four
keyword outcomes; it cannot produce `Error` or `Unset`. -/
theorem normalizeResponse_cases (raw : String) :
    normalizeResponse raw = GenderResult.Male ∨
    normalizeResponse raw = GenderResult.Female ∨
    normalizeResponse raw = GenderResult.Indeterminate ∨
    normalizeResponse raw = GenderResult.NoFaceDetected := by
  simp only [normalizeResponse]
  repeat' (split <;> try tauto)

/-! ## Claims about the classification client -/

/-- C1: for every response text whose trimmed form is none of the four exact
keywords but contains "female" case-insensitively, the substring fallback of
`detectGenderFromImage` returns `Male`, because "female" contains "male" as a
substring and the contains-"male" rule is checked first. -/
theorem fallback_female_misclassified_as_male (raw : String)
    (h1 : strTrim raw ≠ "Male") (h2 : strTrim raw ≠ "Female")
    (h3 : strTrim raw ≠ "Indeterminate") (h4 : strTrim raw ≠ "NoFaceDetected")
    (h5 : containsSub (strToLower (strTrim raw)) "female" = true) :
    normalizeResponse raw = GenderResult.Male := by
  have hmale : containsSub (strToLower (strTrim raw)) "male" = true := by
    have hf : List.IsInfix "female".data (strToLower (strTrim raw)).data :=
      of_decide_eq_true h5
    have hmf : List.IsInfix "male".data "female".data := by decide
    exact decide_eq_true (hmf.trans hf)
  unfold normalizeResponse
  simp only [if_neg h1, if_neg h2, if_neg h3, if_neg h4, hmale, if_true]

/-- Witness for C1 at the concrete response "I believe this is Female.". -/
theorem fallback_female_misclassified_as_male_witness :
    normalizeResponse "I believe this is Female." = GenderResult.Male :=
  fallback_female_misclassified_as_male "I believe this is Female."
    (by decide) (by decide) (by decide) (by decide) (by decide)

/-- C2: whatever the outcome of the external model call, the classification
client resolves to a `GenderResult`; in particular every failure of the call
(caught by the `try/catch`) resolves to the `Error` variant, for every API
key and every input image. -/
theorem classify_failure_resolves_to_error (apiKey : Option String) (img : ImageData) :
    (detectGenderFromImage apiKey img CallOutcome.failure).result = GenderResult.Error := by
  unfold detectGenderFromImage
  split <;> rfl

/-- C3: with no credential configured (absent, or the empty string, both
falsy in the `!API_KEY` check of the source), `detectGenderFromImage` returns
`Error` and attempts no network call, for every image and every would-be
outcome of the call. -/
theorem classify_no_credential_no_network (img : ImageData) (outcome : CallOutcome) :
    detectGenderFromImage none img outcome
      = { result := GenderResult.Error, networkCalled := false } ∧
    detectGenderFromImage (some "") img outcome
      = { result := GenderResult.Error, networkCalled := false } := by
  constructor <;> rfl

/-- C4: when the trimmed response text is exactly one of the four keywords,
normalization returns that keyword as-is; the exact-match step fires before
the substring fallback. -/
theorem exact_keyword_returned_as_is (raw : String) :
    (strTrim raw = "Male" → normalizeResponse raw = GenderResult.Male) ∧
    (strTrim raw = "Female" → normalizeResponse raw = GenderResult.Female) ∧
    (strTrim raw = "Indeterminate" → normalizeResponse raw = GenderResult.Indeterminate) ∧
    (strTrim raw = "NoFaceDetected" → normalizeResponse raw = GenderResult.NoFaceDetected) := by
  refine ⟨?_, ?_, ?_, ?_⟩ <;> intro h <;> unfold normalizeResponse <;> rw [h] <;> decide

/-- Witness for C4: each keyword, one of them surrounded by whitespace that
trimming removes; `" Female "` in particular is not sent to the fallback
(which would have returned `Male`). -/
theorem exact_keyword_returned_as_is_witness :
    normalizeResponse "Male" = GenderResult.Male ∧
    normalizeResponse " Female " = GenderResult.Female ∧
    normalizeResponse "Indeterminate" = GenderResult.Indeterminate ∧
    normalizeResponse "NoFaceDetected" = GenderResult.NoFaceDetected :=
  ⟨(exact_keyword_returned_as_is "Male").1 (by decide),
   (exact_keyword_returned_as_is " Female ").2.1 (by decide),
   (exact_keyword_returned_as_is "Indeterminate").2.2.1 (by decide),
   (exact_keyword_returned_as_is "NoFaceDetected").2.2.2 (by decide)⟩

/-- C9: a response whose trimmed text is no exact keyword and whose
lowercased form contains none of the fallback substrings normalizes to the
default `Indeterminate`. -/
theorem no_match_defaults_to_indeterminate (raw : String)
    (h1 : strTrim raw ≠ "Male") (h2 : strTrim raw ≠ "Female")
    (h3 : strTrim raw ≠ "Indeterminate") (h4 : strTrim raw ≠ "NoFaceDetected")
    (h5 : containsSub (strToLower (strTrim raw)) "male" = false)
    (h6 : containsSub (strToLower (strTrim raw)) "female" = false)
    (h7 : containsSub (strToLower (strTrim raw)) "indeterminate" = false)
    (h8 : containsSub (strToLower (strTrim raw)) "no face" = false)
    (h9 : containsSub (strToLower (strTrim raw)) "nofacedetected" = false) :
    normalizeResponse raw = GenderResult.Indeterminate := by
  unfold normalizeResponse
  simp only [if_neg h1, if_neg h2, if_neg h3, if_neg h4, h5, h6, h7, h8, h9,
    Bool.or_self, Bool.false_eq_true, if_false]

/-- Witness for C9 at the concrete response "banana". -/
theorem no_match_defaults_to_indeterminate_witness :
    normalizeResponse "banana" = GenderResult.Indeterminate :=
  no_match_defaults_to_indeterminate "banana"
    (by decide) (by decide) (by decide) (by decide) (by decide)
    (by decide) (by decide) (by decide) (by decide)

/-- C10: for every API key, image and call outcome, the classification
client returns one of the five values `Male`, `Female`, `Indeterminate`,
`NoFaceDetected`, `Error` — never the `Unset`/null value that the
`GenderResult` union also admits. -/
theorem classify_never_returns_unset (apiKey : Option String) (img : ImageData)
    (outcome : CallOutcome) :
    ((detectGenderFromImage apiKey img outcome).result = GenderResult.Male ∨
     (detectGenderFromImage apiKey img outcome).result = GenderResult.Female ∨
     (detectGenderFromImage apiKey img outcome).result = GenderResult.Indeterminate ∨
     (detectGenderFromImage apiKey img outcome).result = GenderResult.NoFaceDetected ∨
     (detectGenderFromImage apiKey img outcome).result = GenderResult.Error) ∧
    (detectGenderFromImage apiKey img outcome).result ≠ GenderResult.Unset := by
  unfold detectGenderFromImage
  split
  · simp
  · cases outcome with
    | failure => simp
    | success text =>
      rcases normalizeResponse_cases text with h | h | h | h <;> simp [h]

/-! ## Claims about the acquisition controller -/

/-- C8: `resetState` from any state clears the image, the result, the error
and the camera (mode and stream), and it is idempotent: applying it twice
equals applying it once. -/
theorem resetState_idle_and_idempotent (s : AppState) :
    (resetState s).selectedImage = none ∧
    (resetState s).genderResult = GenderResult.Unset ∧
    (resetState s).error = none ∧
    (resetState s).cameraStreamOpen = false ∧
    (resetState s).isCameraMode = false ∧
    resetState (resetState s) = resetState s :=
  ⟨rfl, rfl, rfl, rfl, rfl, rfl⟩

/-- An over-limit upload: one byte above the 4 MiB ceiling, with an allowed
image type. -/
def oversizedFile : UploadFile :=
  { declaredType := "image/png", size := 4 * 1024 * 1024 + 1,
    payload := "QUJD", fileName := "big.png" }

/-- Counterexample to C6 as stated: uploading an oversized file from a state
that holds a previously acquired image and a displayed result does not leave
that prior state unchanged — the handler calls `resetState()` before
validating, so the prior `ImageData` and result are gone after the failed
call. -/
theorem upload_too_large_not_state_preserving :
    ¬ ((handleImageUpload samplePriorState (some oversizedFile) true).selectedImage
         = samplePriorState.selectedImage ∧
       (handleImageUpload samplePriorState (some oversizedFile) true).genderResult
         = samplePriorState.genderResult) := by
  decide

/-- C6 amended: an upload of an image-typed file over 4 MiB fails with the
too-large error and stores no new `ImageData`; but instead of preserving the
prior state, the handler resets it first, so the state after the failed call
is exactly the reset state with the error message set (prior image, result
and camera cleared). -/
theorem upload_too_large_resets_then_errors (s : AppState) (f : UploadFile) (readOk : Bool)
    (htype : strStartsWith f.declaredType "image/" = true)
    (hsize : f.size > maxFileSize) :
    handleImageUpload s (some f) readOk
      = { resetState s with error := some "Image too large. Maximum size is 4MB." } := by
  unfold handleImageUpload
  simp only [htype, Bool.not_true, Bool.false_eq_true, if_false, if_pos hsize]

/-- Witness for the amended C6 at a concrete oversized file and prior
state. -/
theorem upload_too_large_resets_then_errors_witness :
    strStartsWith oversizedFile.declaredType "image/" = true ∧
    oversizedFile.size > maxFileSize ∧
    handleImageUpload samplePriorState (some oversizedFile) true
      = { resetState samplePriorState with
          error := some "Image too large. Maximum size is 4MB." } :=
  ⟨by decide, by decide,
   upload_too_large_resets_then_errors samplePriorState oversizedFile true
     (by decide) (by decide)⟩

/-- A small file with the declared image MIME type `image/tiff`, which is
outside the allow-list {png, jpeg, webp, gif, heic, heif} named by the spec. -/
def tiffFile : UploadFile :=
  { declaredType := "image/tiff", size := 1000,
    payload := "VElGRg", fileName := "scan.tiff" }

/-- Counterexample to C7 as stated: a small `image/tiff` file is not
rejected — the handler stores its `ImageData` and sets no error, because the
code only checks that the declared type starts with "image/", never the
allow-list. -/
theorem upload_tiff_not_rejected :
    ¬ ((handleImageUpload samplePriorState (some tiffFile) true).selectedImage = none ∧
       (handleImageUpload samplePriorState (some tiffFile) true).error
         = some "Invalid file type. Please upload an image (JPEG, PNG, WEBP, GIF, HEIC, HEIF).") := by
  decide

/-- C7 amended: the type check of the handler accepts exactly the files whose
declared MIME type starts with "image/": any such file within the size limit
is accepted and its `ImageData` stored (even `image/tiff`, outside the
allow-list of the spec), while a file with a non-image declared type fails with
the invalid-type error and stores no `ImageData`. -/
theorem upload_type_check_accepts_any_image (s : AppState) (f : UploadFile) (readOk : Bool) :
    (strStartsWith f.declaredType "image/" = false →
      (handleImageUpload s (some f) readOk).error
          = some "Invalid file type. Please upload an image (JPEG, PNG, WEBP, GIF, HEIC, HEIF)." ∧
      (handleImageUpload s (some f) readOk).selectedImage = none) ∧
    (strStartsWith f.declaredType "image/" = true → f.size ≤ maxFileSize → readOk = true →
      (handleImageUpload s (some f) readOk).selectedImage
          = some { base64 := f.payload, mimeType := f.declaredType, fname := some f.fileName } ∧
      (handleImageUpload s (some f) readOk).error = none) := by
  constructor
  · intro htype
    unfold handleImageUpload
    simp only [htype, Bool.not_false, if_true]
    exact ⟨trivial, rfl⟩
  · intro htype hsize hread
    unfold handleImageUpload
    simp only [htype, Bool.not_true, Bool.false_eq_true, if_false, hread,
      if_neg (by omega : ¬ f.size > maxFileSize), if_true]
    exact ⟨trivial, rfl⟩

/-- Witness for the amended C7: the `image/tiff` file is accepted and
stored; a `text/plain` file is rejected with the invalid-type error. -/
theorem upload_type_check_accepts_any_image_witness :
    ((handleImageUpload samplePriorState (some tiffFile) true).selectedImage
        = some { base64 := "VElGRg", mimeType := "image/tiff", fname := some "scan.tiff" } ∧
     (handleImageUpload samplePriorState (some tiffFile) true).error = none) ∧
    ((handleImageUpload samplePriorState
        (some { declaredType := "text/plain", size := 10, payload := "aGk",
                fileName := "note.txt" }) true).error
        = some "Invalid file type. Please upload an image (JPEG, PNG, WEBP, GIF, HEIC, HEIF)." ∧
     (handleImageUpload samplePriorState
        (some { declaredType := "text/plain", size := 10, payload := "aGk",
                fileName := "note.txt" }) true).selectedImage = none) :=
  ⟨by
    have h := (upload_type_check_accepts_any_image samplePriorState tiffFile true).2
      (by decide) (by decide) rfl
    exact ⟨h.1, h.2⟩,
   by
    have h := (upload_type_check_accepts_any_image samplePriorState
      { declaredType := "text/plain", size := 10, payload := "aGk",
        fileName := "note.txt" } true).1 (by decide)
    exact ⟨h.1, h.2⟩⟩

/-- The state of the app the moment a classification request has just been
issued from `samplePriorState`: loading, result cleared, request in flight
for `sampleImage`. -/
def inFlightState : AppState := (handleDetectGenderStart true samplePriorState).1

/-- C5 fails on the code: a classification request is issued (the start step
returns the in-flight image), `resetState` then runs while the call is in
flight — clearing the result — and yet when the pre-reset request resolves
with `Female`, the finish step commits that stale result to the display
state. There is no generation counter or request token suppressing it. -/
theorem stale_result_committed_after_reset :
    (handleDetectGenderStart true samplePriorState).2 = some sampleImage ∧
    (resetState inFlightState).genderResult = GenderResult.Unset ∧
    (handleDetectGenderFinish (resetState inFlightState) GenderResult.Female).genderResult
      = GenderResult.Female := by
  decide
